import Mathlib

/-!
Shallow embedding of the `promote` CLI command (package `promote`):
option validation (`promotionOptions.validate`), dual-path dispatch and
output rendering (`promotionOptions.run`), and the command entry point
(`RunE` in `NewCommand`).

Go errors are modelled by an inductive `GoError`; `errors.Wrap(err, m)` is
`GoError.wrap m err` and `goerrors.Join` is `GoError.join` (returning `none`
when the list is empty).  A nil pointer is `Option.none`; a nil-pointer
dereference panic is the `RunResult.panic` outcome.  The remote service, the
client construction and the structured-output printer are external
collaborators: their results are inputs to `run`, bundled in `Env`.
-/

namespace Promote

/-- Model of Go error values: a base message, `errors.Wrap` (pkg/errors)
adding a static context message, and `goerrors.Join` aggregating a list. -/
inductive GoError where
  | msg : String → GoError
  | wrap : String → GoError → GoError
  | join : List GoError → GoError

/-- `goerrors.Join(errs...)`: nil when the list is empty, else the joined
error (every appended error in the source is non-nil). -/
def goJoin (errs : List GoError) : Option GoError :=
  match errs with
  | [] => none
  | _ => some (GoError.join errs)

/-- Flag name `option.ProjectFlag`. -/
def ProjectFlag : String := "project"

/-- Flag name `option.FreightFlag`. -/
def FreightFlag : String := "freight"

/-- Flag name `option.FreightAliasFlag`. -/
def FreightAliasFlag : String := "freight-alias"

/-- Flag name `option.StageFlag`. -/
def StageFlag : String := "stage"

/-- Flag name `option.SubscribersOfFlag`. -/
def SubscribersOfFlag : String := "subscribers-of"

/-- `metav1.ObjectMeta` as used here: the proto `name` field is a string
pointer. -/
structure ObjectMeta where
  Name : Option String
deriving DecidableEq, Repr

/-- A promotion object as used here: the CLI only touches its metadata. A
nil `Metadata` pointer is `none`. -/
structure Promotion where
  Metadata : Option ObjectMeta
deriving DecidableEq, Repr

/-- Nil-safe proto getter `(*Promotion).GetMetadata()`: nil receiver or nil
field gives nil. -/
def Promotion.GetMetadata : Option Promotion → Option ObjectMeta
  | none => none
  | some p => p.Metadata

/-- Nil-safe proto getter `(*ObjectMeta).GetName()`: empty string on nil. -/
def ObjectMeta.GetName : Option ObjectMeta → String
  | none => ""
  | some m => m.Name.getD ""

/-- `v1alpha1.PromoteStageRequest` as filled by `run`. -/
structure PromoteStageRequest where
  Project : String
  Freight : String
  FreightAlias : String
  Stage : String
deriving DecidableEq, Repr

/-- `v1alpha1.PromoteSubscribersRequest` as filled by `run`. -/
structure PromoteSubscribersRequest where
  Project : String
  Freight : String
  FreightAlias : String
  Stage : String
deriving DecidableEq, Repr

/-- `v1alpha1.PromoteStageResponse`: carries a promotion pointer. -/
structure PromoteStageResponse where
  Promotion : Option Promote.Promotion
deriving DecidableEq, Repr

/-- Nil-safe proto getter `(*PromoteStageResponse).GetPromotion()`. -/
def PromoteStageResponse.GetPromotion :
    Option PromoteStageResponse → Option Promote.Promotion
  | none => none
  | some m => m.Promotion

/-- `v1alpha1.PromoteSubscribersResponse`: carries a slice of promotions. -/
structure PromoteSubscribersResponse where
  Promotions : List Promotion
deriving DecidableEq, Repr

/-- Nil-safe proto getter `(*PromoteSubscribersResponse).GetPromotions()`:
empty slice on nil receiver. -/
def PromoteSubscribersResponse.GetPromotions :
    Option PromoteSubscribersResponse → List Promotion
  | none => []
  | some m => m.Promotions

/-- `connect.Response[PromoteStageResponse]`: `Msg` is a pointer field, read
by plain field access (`res.Msg` panics when `res` itself is nil). -/
structure StageConnectResponse where
  Msg : Option PromoteStageResponse
deriving DecidableEq, Repr

/-- `connect.Response[PromoteSubscribersResponse]`. -/
structure SubsConnectResponse where
  Msg : Option PromoteSubscribersResponse
deriving DecidableEq, Repr

/-- The fields of `promotionOptions` the core reads: the user-supplied
strings plus the output-format selector `o.PrintFlags.OutputFormat`
(a string pointer, read with `ptr.Deref(·, "")`). -/
structure PromotionOptions where
  Project : String
  FreightName : String
  FreightAlias : String
  Stage : String
  SubscribersOf : String
  OutputFormat : Option String
deriving DecidableEq

/-- The structured-output printer obtained from `o.PrintFlags.ToPrinter()`:
`renderObj p` is the bytes `printer.PrintObj(FromPromotionProto(p), out)`
writes for promotion pointer `p`, and `printErr p` is the error that call
returns (discarded by the source with `_ =`). -/
structure Printer where
  renderObj : Option Promotion → String
  printErr : Option Promotion → Option GoError

/-- The external collaborators' behaviour for one invocation: the result of
`client.GetClientFromConfig`, of the two remote calls (response pointer and
error, as the Go pair), and of `ToPrinter`. -/
structure Env where
  clientErr : Option GoError
  stageRes : Option StageConnectResponse
  stageErr : Option GoError
  subsRes : Option SubsConnectResponse
  subsErr : Option GoError
  toPrinter : Except GoError Printer

/-- The remote calls `run` can issue, with the request each carries. -/
inductive RemoteCall where
  | promoteStage : PromoteStageRequest → RemoteCall
  | promoteSubscribers : PromoteSubscribersRequest → RemoteCall
deriving DecidableEq, Repr

/-- Observable result of one command invocation: a nil-pointer-dereference
panic, or normal termination with the bytes written to standard output and
the returned error. -/
inductive RunResult where
  | panic : RunResult
  | done : String → Option GoError → RunResult

/-- One character under Go's `%q` verb (the escapes reachable from the
characters promotion names may carry). -/
def goQuoteChar (c : Char) : String :=
  if c = '\\' then "\\\\"
  else if c = '"' then "\\\""
  else if c = '\n' then "\\n"
  else if c = '\t' then "\\t"
  else if c = '\r' then "\\r"
  else String.singleton c

/-- Go's `%q` formatting of a string: double quotes around the escaped
characters. -/
def goQuote (s : String) : String :=
  "\"" ++ String.join (s.data.map goQuoteChar) ++ "\""

/-- `promotionOptions.validate`: appends one error per failed emptiness
check (project, then freight, then stage selector) and joins them. -/
def promotionOptions.validate (o : PromotionOptions) : Option GoError :=
  let errs : List GoError :=
    (if o.Project = "" then [GoError.msg (ProjectFlag ++ " is required")] else [])
    ++ (if o.FreightName = "" ∧ o.FreightAlias = "" then
          [GoError.msg ("either " ++ FreightFlag ++ " or " ++ FreightAliasFlag ++ " is required")]
        else [])
    ++ (if o.Stage = "" ∧ o.SubscribersOf = "" then
          [GoError.msg ("either " ++ StageFlag ++ " or " ++ SubscribersOfFlag ++ " is required")]
        else [])
  goJoin errs

/-- The plain-mode loop body of the subscribers branch:
`fmt.Fprintf(out, "Promotion Created: %q\n", *p.Metadata.Name)` for each
promotion, dereferencing `p.Metadata` and `p.Metadata.Name` with no nil
guard.  `none` is the panic on a nil pointer; `some s` is the bytes
printed. -/
def printNames : List Promotion → Option String
  | [] => some ""
  | p :: rest =>
    match p.Metadata with
    | none => none
    | some m =>
      match m.Name with
      | none => none
      | some n =>
        (printNames rest).map
          (fun s => "Promotion Created: " ++ goQuote n ++ "\n" ++ s)

/-- The output step of the single-stage branch (source lines 169-180), run
once the remote call has succeeded: plain mode prints one line via the
nil-safe getter chain `res.Msg.GetPromotion().GetMetadata().GetName()`;
structured mode builds the printer and hands the promotion to it,
discarding `PrintObj`'s error.  `out` is the stream contents so far; the
result is the new stream contents and the returned error, or `none` for a
panic (`res.Msg` on a nil `res`). -/
def renderStage (outputFormat : Option String) (toPrinter : Except GoError Printer)
    (res : Option StageConnectResponse) (out : String) :
    Option (String × Option GoError) :=
  if outputFormat.getD "" = "" then
    match res with
    | none => none
    | some r =>
      some (out ++ "Promotion Created: "
              ++ goQuote (ObjectMeta.GetName (Promotion.GetMetadata
                    (PromoteStageResponse.GetPromotion r.Msg))) ++ "\n",
            none)
  else
    match toPrinter with
    | .error e => some (out, some (.wrap "new printer" e))
    | .ok printer =>
      match res with
      | none => none
      | some r =>
        some (out ++ printer.renderObj (PromoteStageResponse.GetPromotion r.Msg),
              none)

/-- The output step of the subscribers branch (source lines 193-213): plain
mode prints one line per promotion behind the guard
`res != nil && res.Msg != nil`, then wraps a non-nil `promoteErr` with
"promote subscribers"; structured mode builds the printer, ranges over
`res.Msg.GetPromotions()` (reading `res.Msg` with no nil guard on `res`),
discards each `PrintObj` error, and returns `promoteErr` unchanged.
`none` is a panic. -/
def renderSubs (outputFormat : Option String) (toPrinter : Except GoError Printer)
    (res : Option SubsConnectResponse) (promoteErr : Option GoError)
    (out : String) : Option (String × Option GoError) :=
  if outputFormat.getD "" = "" then
    match (match res with
           | some r =>
             match r.Msg with
             | some _ => (printNames (PromoteSubscribersResponse.GetPromotions r.Msg)).map (out ++ ·)
             | none => some out
           | none => some out : Option String) with
    | none => none
    | some s =>
      match promoteErr with
      | some e => some (s, some (.wrap "promote subscribers" e))
      | none => some (s, none)
  else
    match toPrinter with
    | .error e => some (out, some (.wrap "new printer" e))
    | .ok printer =>
      match res with
      | none => none
      | some r =>
        some (out ++ String.join ((PromoteSubscribersResponse.GetPromotions r.Msg).map
                (fun p => printer.renderObj (some p))),
              promoteErr)

/-- `promotionOptions.run`: obtain the client, then branch on the first
non-empty selector (`switch` with `case o.Stage != ""` first).  Returns the
list of remote calls issued and the observable result (stdout bytes from an
empty stream, returned error, or panic). -/
def promotionOptions.run (o : PromotionOptions) (env : Env) :
    List RemoteCall × RunResult :=
  match env.clientErr with
  | some e => ([], .done "" (some e))
  | none =>
    if o.Stage ≠ "" then
      let calls := [RemoteCall.promoteStage
        ⟨o.Project, o.FreightName, o.FreightAlias, o.Stage⟩]
      match env.stageErr with
      | some err => (calls, .done "" (some (.wrap "promote stage" err)))
      | none =>
        match renderStage o.OutputFormat env.toPrinter env.stageRes "" with
        | none => (calls, .panic)
        | some (s, e) => (calls, .done s e)
    else if o.SubscribersOf ≠ "" then
      let calls := [RemoteCall.promoteSubscribers
        ⟨o.Project, o.FreightName, o.FreightAlias, o.SubscribersOf⟩]
      match renderSubs o.OutputFormat env.toPrinter env.subsRes env.subsErr "" with
      | none => (calls, .panic)
      | some (s, e) => (calls, .done s e)
    else ([], .done "" none)

/-- The command's `RunE` closure in `NewCommand`: validate, and only on
success enter `run`. -/
def RunE (o : PromotionOptions) (env : Env) : List RemoteCall × RunResult :=
  match promotionOptions.validate o with
  | some e => ([], .done "" (some e))
  | none => promotionOptions.run o env

/-! ## Helpers and concrete fixtures -/

/-- `goerrors.Join` on a non-empty list is the joined error. -/
theorem goJoin_ne_nil (errs : List GoError) (h : errs ≠ []) :
    goJoin errs = some (.join errs) := by
  cases errs with
  | nil => exact absurd rfl h
  | cons a l => rfl

/-- A promotion whose metadata carries the given name. -/
def mkPromo (n : String) : Promotion := ⟨some ⟨some n⟩⟩

/-- The plain-mode lines expected for a list of created names, in order. -/
def promoLines : List String → String
  | [] => ""
  | n :: rest => "Promotion Created: " ++ goQuote n ++ "\n" ++ promoLines rest

/-- On promotions that all carry names, the plain-mode subscriber loop
prints exactly the expected lines, in order. -/
theorem printNames_map_mkPromo (ns : List String) :
    printNames (ns.map mkPromo) = some (promoLines ns) := by
  induction ns with
  | nil => rfl
  | cons n rest ih => simp [printNames, mkPromo, promoLines, ih]

/-- Options `{project: my-project, freightName: abc123, targetStage: qa}`,
plain output mode. -/
def optsStagePlain : PromotionOptions := ⟨"my-project", "abc123", "", "qa", "", none⟩

/-- Options `{project: my-project, freightAlias: wonky-wombat,
subscribersOfStage: qa}`, plain output mode. -/
def optsSubsPlain : PromotionOptions := ⟨"my-project", "", "wonky-wombat", "", "qa", none⟩

/-- Same options with a structured output format requested. -/
def optsSubsJson : PromotionOptions := ⟨"my-project", "", "wonky-wombat", "", "qa", some "json"⟩

/-- A printer writing a fixed chunk per object and reporting no error. -/
def constPrinter : Printer := ⟨fun _ => "X", fun _ => none⟩

/-- Environment: client ok, `PromoteStage` succeeds with one promotion
named `n`; the subscribers call is never reached. -/
def stageOkEnv (n : String) : Env :=
  ⟨none, some ⟨some ⟨some (mkPromo n)⟩⟩, none, none, none, .error (.msg "no printer")⟩

/-- Environment: client ok, `PromoteStage` fails with error `E`. -/
def stageErrEnv : Env :=
  ⟨none, none, some (.msg "E"), none, none, .error (.msg "no printer")⟩

/-! ## Claims -/

/-- C5: for options passing validation with `targetStage` set and plain
output mode, a successful `PromoteStage` call returning a promotion named
`n` makes the command write exactly one line `Promotion Created: "n"`
followed by a newline to standard output and return nil. -/
theorem stage_plain_success_prints_one_line
    (o : PromotionOptions) (env : Env) (n : String)
    (hv : promotionOptions.validate o = none)
    (hst : o.Stage ≠ "")
    (hplain : o.OutputFormat.getD "" = "")
    (hcl : env.clientErr = none)
    (herr : env.stageErr = none)
    (hres : env.stageRes = some ⟨some ⟨some (mkPromo n)⟩⟩) :
    RunE o env =
      ([RemoteCall.promoteStage ⟨o.Project, o.FreightName, o.FreightAlias, o.Stage⟩],
       .done ("Promotion Created: " ++ goQuote n ++ "\n") none) := by
  unfold RunE
  rw [hv]
  unfold promotionOptions.run
  rw [hcl]
  simp [hst, herr, hres, renderStage, hplain, PromoteStageResponse.GetPromotion,
    Promotion.GetMetadata, ObjectMeta.GetName, mkPromo]

/-- C5 witness at options `optsStagePlain` and environment
`stageOkEnv "promo-1"`. -/
theorem stage_plain_success_prints_one_line_witness :
    RunE optsStagePlain (stageOkEnv "promo-1") =
      ([RemoteCall.promoteStage ⟨"my-project", "abc123", "", "qa"⟩],
       .done ("Promotion Created: " ++ goQuote "promo-1" ++ "\n") none) :=
  stage_plain_success_prints_one_line optsStagePlain (stageOkEnv "promo-1") "promo-1"
    rfl (by decide) rfl rfl rfl rfl

/-- C6: for options passing validation with `targetStage` set, a failed
`PromoteStage` call with error `E` makes the command write nothing to
standard output (whatever the output mode) and return `E` wrapped with the
static context "promote stage". -/
theorem stage_error_wrapped_no_output
    (o : PromotionOptions) (env : Env) (E : GoError)
    (hv : promotionOptions.validate o = none)
    (hst : o.Stage ≠ "")
    (hcl : env.clientErr = none)
    (herr : env.stageErr = some E) :
    RunE o env =
      ([RemoteCall.promoteStage ⟨o.Project, o.FreightName, o.FreightAlias, o.Stage⟩],
       .done "" (some (.wrap "promote stage" E))) := by
  unfold RunE
  rw [hv]
  unfold promotionOptions.run
  rw [hcl]
  simp [hst, herr]

/-- C6 witness at options `optsStagePlain` and environment `stageErrEnv`. -/
theorem stage_error_wrapped_no_output_witness :
    RunE optsStagePlain stageErrEnv =
      ([RemoteCall.promoteStage ⟨"my-project", "abc123", "", "qa"⟩],
       .done "" (some (.wrap "promote stage" (.msg "E")))) :=
  stage_error_wrapped_no_output optsStagePlain stageErrEnv (.msg "E")
    rfl (by decide) rfl rfl

/-- C8: when both `Stage` and `SubscribersOf` are non-empty (a state
`validate` does not reject), `run` takes the single-stage branch: exactly
one `PromoteStage` call is issued and no `PromoteSubscribers` call
occurs. -/
theorem both_selectors_stage_precedence
    (o : PromotionOptions) (env : Env)
    (hst : o.Stage ≠ "") (hsub : o.SubscribersOf ≠ "")
    (hcl : env.clientErr = none) :
    (promotionOptions.run o env).1 =
      [RemoteCall.promoteStage ⟨o.Project, o.FreightName, o.FreightAlias, o.Stage⟩] := by
  unfold promotionOptions.run
  simp only [hcl]
  rw [if_pos hst]
  cases env.stageErr with
  | some e => rfl
  | none =>
    cases renderStage o.OutputFormat env.toPrinter env.stageRes "" with
    | none => rfl
    | some p => cases p with | mk s e => rfl

/-- C8 witness at options with both selectors set. -/
theorem both_selectors_stage_precedence_witness :
    (promotionOptions.run ⟨"my-project", "abc123", "", "qa", "uat", none⟩ stageErrEnv).1 =
      [RemoteCall.promoteStage ⟨"my-project", "abc123", "", "qa"⟩] :=
  both_selectors_stage_precedence ⟨"my-project", "abc123", "", "qa", "uat", none⟩
    stageErrEnv (by decide) (by decide) rfl

/-- C4 counterexample: options with both freight identifier fields
non-empty pass `validate` (it only rejects the both-empty case), and a
remote call is issued — refuting the claim's "neither or both" reading. -/
theorem validate_both_freight_passes :
    promotionOptions.validate ⟨"my-project", "abc123", "wonky-wombat", "qa", "", none⟩ = none ∧
    (RunE ⟨"my-project", "abc123", "wonky-wombat", "qa", "", none⟩ (stageOkEnv "promo-1")).1 =
      [RemoteCall.promoteStage ⟨"my-project", "abc123", "wonky-wombat", "qa"⟩] :=
  ⟨rfl, rfl⟩

/-- C4 (amended): whenever project is empty, or both freight identifier
fields are empty, or both stage-selector fields are empty, `validate`
returns the non-empty aggregate of exactly the violated checks, in check
order (project, then freight, then selector), and the command returns it
without entering `run` — no remote call is made.  Both-set states are not
rejected here (parse-time flag exclusivity is expected to catch them). -/
theorem validate_empty_cases_aggregate_and_block
    (o : PromotionOptions) (env : Env)
    (h : o.Project = "" ∨ (o.FreightName = "" ∧ o.FreightAlias = "")
       ∨ (o.Stage = "" ∧ o.SubscribersOf = "")) :
    ∃ errs : List GoError,
      errs ≠ [] ∧
      errs = (if o.Project = "" then [GoError.msg (ProjectFlag ++ " is required")] else [])
        ++ (if o.FreightName = "" ∧ o.FreightAlias = "" then
              [GoError.msg ("either " ++ FreightFlag ++ " or " ++ FreightAliasFlag ++ " is required")]
            else [])
        ++ (if o.Stage = "" ∧ o.SubscribersOf = "" then
              [GoError.msg ("either " ++ StageFlag ++ " or " ++ SubscribersOfFlag ++ " is required")]
            else []) ∧
      promotionOptions.validate o = some (.join errs) ∧
      RunE o env = ([], .done "" (some (.join errs))) := by
  have hne : ((if o.Project = "" then [GoError.msg (ProjectFlag ++ " is required")] else [])
      ++ (if o.FreightName = "" ∧ o.FreightAlias = "" then
            [GoError.msg ("either " ++ FreightFlag ++ " or " ++ FreightAliasFlag ++ " is required")]
          else [])
      ++ (if o.Stage = "" ∧ o.SubscribersOf = "" then
            [GoError.msg ("either " ++ StageFlag ++ " or " ++ SubscribersOfFlag ++ " is required")]
          else [])) ≠ [] := by
    rcases h with h | h | h <;> simp [h]
  have hval : promotionOptions.validate o =
      some (.join ((if o.Project = "" then [GoError.msg (ProjectFlag ++ " is required")] else [])
        ++ (if o.FreightName = "" ∧ o.FreightAlias = "" then
              [GoError.msg ("either " ++ FreightFlag ++ " or " ++ FreightAliasFlag ++ " is required")]
            else [])
        ++ (if o.Stage = "" ∧ o.SubscribersOf = "" then
              [GoError.msg ("either " ++ StageFlag ++ " or " ++ SubscribersOfFlag ++ " is required")]
            else []))) := goJoin_ne_nil _ hne
  refine ⟨_, hne, rfl, hval, ?_⟩
  unfold RunE
  rw [hval]

/-- C4 witness at fully-empty options: all three checks violated. -/
theorem validate_empty_cases_witness :
    ∃ errs : List GoError,
      errs ≠ [] ∧
      errs = [GoError.msg (ProjectFlag ++ " is required"),
              GoError.msg ("either " ++ FreightFlag ++ " or " ++ FreightAliasFlag ++ " is required"),
              GoError.msg ("either " ++ StageFlag ++ " or " ++ SubscribersOfFlag ++ " is required")] ∧
      promotionOptions.validate ⟨"", "", "", "", "", none⟩ = some (.join errs) ∧
      RunE ⟨"", "", "", "", "", none⟩ stageErrEnv = ([], .done "" (some (.join errs))) :=
  validate_empty_cases_aggregate_and_block ⟨"", "", "", "", "", none⟩ stageErrEnv (Or.inl rfl)

/-- Environment: client ok, `PromoteSubscribers` returns a response with
promotions `promo-2`, `promo-3` together with error `E`. -/
def subsPartialEnv : Env :=
  ⟨none, none, none, some ⟨some ⟨[mkPromo "promo-2", mkPromo "promo-3"]⟩⟩,
   some (.msg "E"), .error (.msg "no printer")⟩

/-- C1: for options passing validation with `subscribersOfStage` set and
plain output mode, when `PromoteSubscribers` returns a response whose
promotions carry names `ns` together with a non-nil error `E`, the command
prints one `Promotion Created: "<name>"` line per promotion, in response
order, and then returns `E` wrapped with context "promote subscribers". -/
theorem subscribers_plain_partial_failure_prints_then_errors
    (o : PromotionOptions) (env : Env) (ns : List String) (E : GoError)
    (hv : promotionOptions.validate o = none)
    (hstage : o.Stage = "")
    (hsub : o.SubscribersOf ≠ "")
    (hplain : o.OutputFormat.getD "" = "")
    (hcl : env.clientErr = none)
    (hres : env.subsRes = some ⟨some ⟨ns.map mkPromo⟩⟩)
    (herr : env.subsErr = some E) :
    RunE o env =
      ([RemoteCall.promoteSubscribers ⟨o.Project, o.FreightName, o.FreightAlias, o.SubscribersOf⟩],
       .done (promoLines ns) (some (.wrap "promote subscribers" E))) := by
  unfold RunE
  rw [hv]
  unfold promotionOptions.run
  rw [hcl]
  simp [hstage, hsub, renderSubs, hres, herr, hplain,
    PromoteSubscribersResponse.GetPromotions, printNames_map_mkPromo,
    String.empty_append]

/-- C1 witness: scenario C's stdout, byte for byte. -/
theorem subscribers_plain_partial_failure_witness :
    RunE optsSubsPlain subsPartialEnv =
      ([RemoteCall.promoteSubscribers ⟨"my-project", "", "wonky-wombat", "qa"⟩],
       .done "Promotion Created: \"promo-2\"\nPromotion Created: \"promo-3\"\n"
         (some (.wrap "promote subscribers" (.msg "E")))) :=
  subscribers_plain_partial_failure_prints_then_errors optsSubsPlain subsPartialEnv
    ["promo-2", "promo-3"] (.msg "E") rfl rfl (by decide) rfl rfl rfl rfl

/-- Environment: client ok, `PromoteSubscribers` returns a nil response
together with error `E`; the printer machinery itself works. -/
def subsNilEnv : Env :=
  ⟨none, none, none, none, some (.msg "E"), .ok constPrinter⟩

/-- C3: with `subscribersOfStage` set and a nil response carrying error
`E`, plain mode prints nothing and returns the wrapped error as the claim
says — but structured mode reads `res.Msg` from the nil response with no
guard and panics instead of returning the wrapped error. -/
theorem subscribers_nil_response_plain_ok_structured_panics :
    RunE optsSubsPlain subsNilEnv =
      ([RemoteCall.promoteSubscribers ⟨"my-project", "", "wonky-wombat", "qa"⟩],
       .done "" (some (.wrap "promote subscribers" (.msg "E")))) ∧
    RunE optsSubsJson subsNilEnv =
      ([RemoteCall.promoteSubscribers ⟨"my-project", "", "wonky-wombat", "qa"⟩],
       .panic) :=
  ⟨rfl, rfl⟩

/-- Environment: client ok, `PromoteSubscribers` returns promotions
`promo-2`, `promo-3` together with error `E`, and `ToPrinter` yields
`constPrinter`. -/
def subsPartialJsonEnv : Env :=
  ⟨none, none, none, some ⟨some ⟨[mkPromo "promo-2", mkPromo "promo-3"]⟩⟩,
   some (.msg "E"), .ok constPrinter⟩

/-- C2 counterexample: in structured mode the subscribers branch returns
the remote error `E` unchanged (`return promoteErr`), and that raw error is
not the "promote subscribers"-wrapped error the claim promises. -/
theorem subscribers_structured_error_not_wrapped :
    RunE optsSubsJson subsPartialJsonEnv =
      ([RemoteCall.promoteSubscribers ⟨"my-project", "", "wonky-wombat", "qa"⟩],
       .done "XX" (some (.msg "E"))) ∧
    GoError.msg "E" ≠ GoError.wrap "promote subscribers" (.msg "E") :=
  ⟨rfl, fun h => GoError.noConfusion h⟩

/-- C2 (amended): in structured mode with the response present, the
subscribers branch hands every created object to the printer, in order,
and then returns the remote call's error unchanged — unwrapped, unlike
plain mode, which wraps it with "promote subscribers". -/
theorem subscribers_structured_returns_raw_error
    (o : PromotionOptions) (env : Env) (printer : Printer)
    (r : SubsConnectResponse) (E : GoError)
    (hv : promotionOptions.validate o = none)
    (hstage : o.Stage = "")
    (hsub : o.SubscribersOf ≠ "")
    (hfmt : o.OutputFormat.getD "" ≠ "")
    (hcl : env.clientErr = none)
    (hp : env.toPrinter = .ok printer)
    (hres : env.subsRes = some r)
    (herr : env.subsErr = some E) :
    RunE o env =
      ([RemoteCall.promoteSubscribers ⟨o.Project, o.FreightName, o.FreightAlias, o.SubscribersOf⟩],
       .done (String.join ((PromoteSubscribersResponse.GetPromotions r.Msg).map
                (fun p => printer.renderObj (some p))))
         (some E)) := by
  unfold RunE
  rw [hv]
  unfold promotionOptions.run
  rw [hcl]
  simp [hstage, hsub, renderSubs, hfmt, hp, hres, herr, String.empty_append]

/-- C2 witness at the scenario-C options in structured mode. -/
theorem subscribers_structured_returns_raw_error_witness :
    RunE optsSubsJson subsPartialJsonEnv =
      ([RemoteCall.promoteSubscribers ⟨"my-project", "", "wonky-wombat", "qa"⟩],
       .done "XX" (some (.msg "E"))) :=
  subscribers_structured_returns_raw_error optsSubsJson subsPartialJsonEnv constPrinter
    ⟨some ⟨[mkPromo "promo-2", mkPromo "promo-3"]⟩⟩ (.msg "E")
    rfl rfl (by decide) (by decide) rfl rfl rfl rfl

/-- The single-stage rendering step only appends to the stream: its result
on stream `out` is its result on the empty stream with `out` prefixed. -/
theorem renderStage_append (fmt : Option String) (tp : Except GoError Printer)
    (res : Option StageConnectResponse) (out : String) :
    renderStage fmt tp res out =
      (renderStage fmt tp res "").map (fun r => (out ++ r.1, r.2)) := by
  unfold renderStage
  by_cases hf : fmt.getD "" = ""
  · rw [if_pos hf, if_pos hf]
    cases res with
    | none => rfl
    | some r => simp [String.empty_append, String.append_assoc]
  · rw [if_neg hf, if_neg hf]
    cases tp with
    | error e => simp [String.append_empty]
    | ok printer =>
      cases res with
      | none => rfl
      | some r => simp [String.empty_append]

/-- The subscribers rendering step only appends to the stream. -/
theorem renderSubs_append (fmt : Option String) (tp : Except GoError Printer)
    (res : Option SubsConnectResponse) (perr : Option GoError) (out : String) :
    renderSubs fmt tp res perr out =
      (renderSubs fmt tp res perr "").map (fun r => (out ++ r.1, r.2)) := by
  unfold renderSubs
  by_cases hf : fmt.getD "" = ""
  · rw [if_pos hf, if_pos hf]
    cases res with
    | none => cases perr <;> simp [String.append_empty]
    | some r =>
      cases hm : r.Msg with
      | none => cases perr <;> simp [hm, String.append_empty]
      | some m =>
        cases hpn : printNames (PromoteSubscribersResponse.GetPromotions (some m)) with
        | none => simp [hm, hpn]
        | some s => cases perr <;> simp [hm, hpn, String.empty_append]
  · rw [if_neg hf, if_neg hf]
    cases tp with
    | error e => simp [String.append_empty]
    | ok printer =>
      cases res with
      | none => rfl
      | some r => simp [String.empty_append]

/-- C7: rendering is deterministic and stateless — for a fixed dispatch
outcome and format, performing the output-rendering step twice appends the
same bytes to the stream and returns the same error both times, in the
subscribers branch and the single-stage branch alike. -/
theorem render_twice_identical
    (fmt : Option String) (tp : Except GoError Printer)
    (res : Option SubsConnectResponse) (perr : Option GoError)
    (sres : Option StageConnectResponse) (out : String) :
    (∀ s e, renderSubs fmt tp res perr "" = some (s, e) →
       renderSubs fmt tp res perr out = some (out ++ s, e) ∧
       renderSubs fmt tp res perr (out ++ s) = some ((out ++ s) ++ s, e)) ∧
    (∀ s e, renderStage fmt tp sres "" = some (s, e) →
       renderStage fmt tp sres out = some (out ++ s, e) ∧
       renderStage fmt tp sres (out ++ s) = some ((out ++ s) ++ s, e)) := by
  constructor
  · intro s e h
    constructor
    · rw [renderSubs_append fmt tp res perr out, h]; rfl
    · rw [renderSubs_append fmt tp res perr (out ++ s), h]; rfl
  · intro s e h
    constructor
    · rw [renderStage_append fmt tp sres out, h]; rfl
    · rw [renderStage_append fmt tp sres (out ++ s), h]; rfl

/-- C7 witness: plain-mode subscriber rendering of one promotion, twice,
over a non-empty stream. -/
theorem render_twice_identical_witness :
    renderSubs none (.ok constPrinter) (some ⟨some ⟨[mkPromo "a"]⟩⟩) none "LOG" =
      some ("LOG" ++ "Promotion Created: \"a\"\n", none) ∧
    renderSubs none (.ok constPrinter) (some ⟨some ⟨[mkPromo "a"]⟩⟩) none
        ("LOG" ++ "Promotion Created: \"a\"\n") =
      some (("LOG" ++ "Promotion Created: \"a\"\n") ++ "Promotion Created: \"a\"\n", none) :=
  (render_twice_identical none (.ok constPrinter) (some ⟨some ⟨[mkPromo "a"]⟩⟩) none
      (some ⟨some ⟨some (mkPromo "b")⟩⟩) "LOG").1
    "Promotion Created: \"a\"\n" none rfl

/-- Options `{project: my-project, freightName: abc123, targetStage: qa}`
with a structured output format requested. -/
def optsStageJson : PromotionOptions := ⟨"my-project", "abc123", "", "qa", "", some "json"⟩

/-- C9: `PrintObj`'s error is discarded in both structured branches: the
command's result never depends on it; after a successful call the
single-stage branch returns nil even if printing the object fails, and the
subscribers branch returns the remote call's error whatever the printer
reports. -/
theorem printobj_errors_discarded
    (o : PromotionOptions) (rf : Option Promotion → String)
    (peA peB : Option Promotion → Option GoError)
    (sres : Option StageConnectResponse) (serr : Option GoError)
    (bres : Option SubsConnectResponse) (berr : Option GoError)
    (hfmt : o.OutputFormat.getD "" ≠ "") :
    promotionOptions.run o ⟨none, sres, serr, bres, berr, .ok ⟨rf, peA⟩⟩ =
      promotionOptions.run o ⟨none, sres, serr, bres, berr, .ok ⟨rf, peB⟩⟩ ∧
    (o.Stage ≠ "" → serr = none → ∀ r, sres = some r →
      promotionOptions.run o ⟨none, sres, serr, bres, berr, .ok ⟨rf, peA⟩⟩ =
        ([RemoteCall.promoteStage ⟨o.Project, o.FreightName, o.FreightAlias, o.Stage⟩],
         .done (rf (PromoteStageResponse.GetPromotion r.Msg)) none)) ∧
    (o.Stage = "" → o.SubscribersOf ≠ "" → ∀ r, bres = some r →
      promotionOptions.run o ⟨none, sres, serr, bres, berr, .ok ⟨rf, peA⟩⟩ =
        ([RemoteCall.promoteSubscribers ⟨o.Project, o.FreightName, o.FreightAlias, o.SubscribersOf⟩],
         .done (String.join ((PromoteSubscribersResponse.GetPromotions r.Msg).map
                  (fun p => rf (some p)))) berr)) := by
  have hstg : ∀ out, renderStage o.OutputFormat (.ok ⟨rf, peA⟩) sres out
      = renderStage o.OutputFormat (.ok ⟨rf, peB⟩) sres out := by
    intro out
    unfold renderStage
    by_cases hf : o.OutputFormat.getD "" = "" <;> simp [hf]
  have hsb : ∀ out, renderSubs o.OutputFormat (.ok ⟨rf, peA⟩) bres berr out
      = renderSubs o.OutputFormat (.ok ⟨rf, peB⟩) bres berr out := by
    intro out
    unfold renderSubs
    by_cases hf : o.OutputFormat.getD "" = "" <;> simp [hf]
  refine ⟨?_, ?_, ?_⟩
  · by_cases hst : o.Stage ≠ ""
    · simp [promotionOptions.run, hst, hstg]
    · by_cases hsub : o.SubscribersOf ≠ ""
      · simp [promotionOptions.run, hst, hsub, hsb]
      · simp [promotionOptions.run, hst, hsub]
  · intro hst hserr r hres
    subst hserr; subst hres
    simp [promotionOptions.run, hst, renderStage, hfmt, String.empty_append]
  · intro hstage hsub r hres
    subst hres
    simp [promotionOptions.run, hstage, hsub, renderSubs, hfmt, String.empty_append]

/-- C9 witness: structured single-stage success with a printer whose
`PrintObj` would fail; the command still returns nil. -/
theorem printobj_errors_discarded_witness :
    promotionOptions.run optsStageJson
        ⟨none, some ⟨some ⟨some (mkPromo "promo-1")⟩⟩, none, none, none,
         .ok ⟨fun _ => "X", fun _ => none⟩⟩ =
      ([RemoteCall.promoteStage ⟨"my-project", "abc123", "", "qa"⟩], .done "X" none) :=
  (printobj_errors_discarded optsStageJson (fun _ => "X") (fun _ => none)
      (fun _ => some (.msg "print failed")) (some ⟨some ⟨some (mkPromo "promo-1")⟩⟩)
      none none none (by decide)).2.1
    (by decide) rfl ⟨some ⟨some (mkPromo "promo-1")⟩⟩ rfl

/-- Whether a promotion carries both a metadata pointer and a name pointer,
the two pointers `*p.Metadata.Name` dereferences. -/
def hasMetaName (p : Promotion) : Bool :=
  match p.Metadata with
  | none => false
  | some m => m.Name.isSome

/-- C10: the plain-mode subscriber printing loop, which dereferences
`*p.Metadata.Name` with no nil guard, terminates normally exactly when
every promotion in the response carries non-nil `Metadata` and
`Metadata.Name`; the single-stage plain path, built on nil-safe getter
chains, never panics once a response is present. -/
theorem plain_loop_needs_names :
    (∀ promos : List Promotion,
       (printNames promos).isSome = true ↔ ∀ p ∈ promos, hasMetaName p = true) ∧
    (∀ (tp : Except GoError Printer) (r : StageConnectResponse) (out : String),
       (renderStage none tp (some r) out).isSome = true) := by
  constructor
  · intro promos
    induction promos with
    | nil => simp [printNames]
    | cons p rest ih =>
      cases hm : p.Metadata with
      | none => simp [printNames, hm, hasMetaName]
      | some m =>
        cases hn : m.Name with
        | none => simp [printNames, hm, hn, hasMetaName]
        | some n => simp [printNames, hm, hn, hasMetaName, ih]
  · intro tp r out
    simp [renderStage]

end Promote
